import Mathlib

set_option maxRecDepth 4096

deriving instance DecidableEq for Except

/-- Python-style error values raised by the embedded code paths. -/
inductive PyErr where
  | keyError (key : String)
  | nameError (name : String)
  | typeError
  | validationError
  | jsonDecodeError
  | indexError
  deriving DecidableEq

/-- Prepend a character to the first chunk of a split result. -/
def consHead (c : Char) : List (List Char) → List (List Char)
  | [] => [[c]]
  | h :: t => (c :: h) :: t

/-- Split a character list on a single separator character, Python str.split style:
the empty input yields one empty chunk and adjacent separators yield empty chunks. -/
def pySplitCharAux (sep : Char) : List Char → List (List Char)
  | [] => [[]]
  | c :: rest =>
    if c = sep then [] :: pySplitCharAux sep rest
    else consHead c (pySplitCharAux sep rest)

/-- Python str.split with a one-character separator. -/
def pySplitChar (sep : Char) (s : String) : List String :=
  (pySplitCharAux sep s.toList).map List.asString

/-- Split on the four-character separator used for issue headings, Python
str.split style: scan left to right, cut at each occurrence of the separator. -/
def pySplitHdrAux : List Char → List (List Char)
  | '#' :: '#' :: '#' :: ' ' :: rest => [] :: pySplitHdrAux rest
  | c :: rest => consHead c (pySplitHdrAux rest)
  | [] => [[]]

/-- Python split on the heading marker string. -/
def pySplitHdr (s : String) : List String :=
  (pySplitHdrAux s.toList).map List.asString

/-- ASCII whitespace recognized by Python str.strip on the inputs we model. -/
def isPySpace (c : Char) : Bool :=
  c = ' ' || c = '\t' || c = '\n' || c = '\r' || c = '\x0b' || c = '\x0c'

/-- Python str.strip: drop leading and trailing whitespace. -/
def pyStrip (s : String) : String :=
  (((s.toList.dropWhile isPySpace).reverse.dropWhile isPySpace).reverse).asString

/-- Join character chunks with a separator, Python str.join style. -/
def pyJoinAux (sep : List Char) : List (List Char) → List Char
  | [] => []
  | [x] => x
  | x :: y :: xs => x ++ sep ++ pyJoinAux sep (y :: xs)

/-- Python str.join. -/
def pyJoin (sep : String) (xs : List String) : String :=
  (pyJoinAux sep.toList (xs.map String.toList)).asString

/-- First-match lookup in an insertion-ordered association list (Python dict read). -/
def dlookup {α : Type} : List (String × α) → String → Option α
  | [], _ => none
  | (k, v) :: rest, key => if k = key then some v else dlookup rest key

/-- Python dict write: an existing key keeps its position and gets the new value,
a new key is appended at the end. -/
def dictInsert {α : Type} (d : List (String × α)) (k : String) (v : α) : List (String × α) :=
  if (dlookup d k).isSome then d.map (fun p => if p.1 = k then (k, v) else p)
  else d ++ [(k, v)]

/-- Python dict built from an ordered list of pairs: later duplicates overwrite
earlier values while keeping the first-insertion position. -/
def dictFromPairs {α : Type} (pairs : List (String × α)) : List (String × α) :=
  pairs.foldl (fun d p => dictInsert d p.1 p.2) []

/-- Python dict.pop side: the mapping with the key removed. -/
def dictRemove {α : Type} (d : List (String × α)) (k : String) : List (String × α) :=
  d.filter (fun p => p.1 ≠ k)

/-- A value held in the parsed-arguments dict of parse_submission_issue:
a section body string, Python None, or the normalized labels list. -/
inductive FieldVal where
  | str (s : String)
  | pyNone
  | strList (l : List String)
  deriving DecidableEq

/-- One entry of tests_results (ecosystem.models.TestResult as used by
Manager.update_badges: only test_type and passed are read there). -/
structure TestResult where
  test_type : String
  passed : Bool
  deriving DecidableEq

/-- Registry record (ecosystem.models.repository.Repository as read by the
code under verification: manager.py reads name, url, labels, website, stars,
skip_tests and tests_results; the rest are the submission fields). -/
structure Repository where
  name : String
  url : String
  description : Option String
  licence : Option String
  contact_info : Option String
  alternatives : Option String
  affiliations : Option String
  labels : List String
  website : Option String
  tier : String
  stars : Option Int
  skip_tests : Bool
  tests_results : List TestResult
  deriving DecidableEq

/-- One element of the issue template body as decoded from
.github/ISSUE_TEMPLATE/submission.yml: the "type" key, the "attributes" mapping
(outer none = no attributes key, inner = its "label" entry) and the "id" key;
none models an absent key, which Python surfaces as a KeyError on access. -/
structure FormElement where
  ftype : Option String
  attributes : Option (Option String)
  id : Option String
  deriving DecidableEq

/-- The _clean_section helper of submission_parser.py: the first line, stripped,
is the title; the remaining non-empty lines are stripped and joined by one space. -/
def cleanSection (sec : String) : String × String :=
  let paragraphs := pySplitChar '\n' sec
  let body := pyJoin " " ((paragraphs.drop 1).filter (fun p => p ≠ "") |>.map pyStrip)
  let title := pyStrip (paragraphs.headD "")
  (title, body)

/-- The label-to-id dict comprehension of _section_titles_to_ids, walking the
template form elements in order: markdown elements are skipped, a missing
type, attributes, label or id raises a KeyError, and a repeated label
overwrites the earlier id (Python dict semantics). -/
def buildLabelToIdAux (acc : List (String × String)) :
    List FormElement → Except PyErr (List (String × String))
  | [] => .ok acc
  | f :: fs =>
    match f.ftype with
    | none => .error (.keyError "type")
    | some t =>
      if t = "markdown" then buildLabelToIdAux acc fs
      else
        match f.attributes with
        | none => .error (.keyError "attributes")
        | some attrs =>
          match attrs with
          | none => .error (.keyError "label")
          | some lbl =>
            match f.id with
            | none => .error (.keyError "id")
            | some i => buildLabelToIdAux (dictInsert acc lbl i) fs

/-- The label-to-id mapping built by _section_titles_to_ids from the decoded
issue template. -/
def buildLabelToId (template : List FormElement) : Except PyErr (List (String × String)) :=
  buildLabelToIdAux [] template

/-- The re-keying comprehension of _section_titles_to_ids: each section title is
looked up in the label-to-id mapping (KeyError when unknown) and the dict is
rebuilt keyed by id, in section order. -/
def sectionsToIdsAux (label_to_id : List (String × String)) (acc : List (String × String)) :
    List (String × String) → Except PyErr (List (String × String))
  | [] => .ok acc
  | (title, value) :: rest =>
    match dlookup label_to_id title with
    | none => .error (.keyError title)
    | some i => sectionsToIdsAux label_to_id (dictInsert acc i value) rest

/-- Full _section_titles_to_ids on an already-decoded template. -/
def sectionsToIds (template : List FormElement) (sections : List (String × String)) :
    Except PyErr (List (String × String)) := do
  let label_to_id ← buildLabelToId template
  sectionsToIdsAux label_to_id [] sections

/-- The sentinel-replacement comprehension of parse_submission_issue: a body
exactly equal to the no-answer placeholder becomes Python None. -/
def sentinelStep (args : List (String × String)) : List (String × FieldVal) :=
  args.map (fun p => (p.1, if p.2 = "_No response_" then FieldVal.pyNone else FieldVal.str p.2))

/-- The labels block of parse_submission_issue: args["labels"] raises a KeyError
when the key is absent; None becomes the empty list; otherwise the string is
split on commas and each piece stripped (empty pieces are kept). -/
def labelsStep (args : List (String × FieldVal)) : Except PyErr (List (String × FieldVal)) :=
  match dlookup args "labels" with
  | none => .error (.keyError "labels")
  | some .pyNone => .ok (dictInsert args "labels" (.strList []))
  | some (.str s) =>
      .ok (dictInsert args "labels" (.strList ((pySplitChar ',' s).map pyStrip)))
  | some (.strList _) => .error .typeError

/-- Modelled from the spec: the recognized tier values (ecosystem.models.Tier is
not under src/; the spec gives a fixed closed set with Main and Community and a
community default). -/
def tiers : List String := ["Main", "Community"]

/-- Keyword arguments accepted by the Repository constructor, per the call sites
in manager.py and the submission fields of the spec data model. -/
def repositoryKeys : List String :=
  ["name", "url", "description", "licence", "contact_info", "alternatives",
   "affiliations", "labels", "website", "tier"]

/-- Read an optional free-text field from the args dict. -/
def getOptStr (args : List (String × FieldVal)) (k : String) : Option String :=
  match dlookup args k with
  | some (.str s) => some s
  | _ => none

/-- Modelled from the spec: the Repository constructor
(ecosystem/models/repository.py is not under src/). Per spec 4.3 and 3 it
fails with a ValidationError when name or url is absent or when a supplied
tier is not a recognized value; tier defaults to Community; stars is absent
and tests_results empty at construction; an unknown keyword is rejected. -/
def mkRepository (args : List (String × FieldVal)) : Except PyErr Repository :=
  if !(args.all (fun p => repositoryKeys.contains p.1)) then .error .typeError
  else
    match dlookup args "name", dlookup args "url" with
    | some (.str n), some (.str u) =>
      let labels := match dlookup args "labels" with
        | some (.strList ls) => ls
        | _ => []
      let tierArg := getOptStr args "tier"
      match tierArg with
      | some t =>
        if tiers.contains t then
          .ok ⟨n, u, getOptStr args "description", getOptStr args "licence",
               getOptStr args "contact_info", getOptStr args "alternatives",
               getOptStr args "affiliations", labels, getOptStr args "website",
               t, none, false, []⟩
        else .error .validationError
      | none =>
        .ok ⟨n, u, getOptStr args "description", getOptStr args "licence",
             getOptStr args "contact_info", getOptStr args "alternatives",
             getOptStr args "affiliations", labels, getOptStr args "website",
             "Community", none, false, []⟩
    | _, _ => .error .validationError

/-- parse_submission_issue of submission_parser.py, embedded after the external
mdformat.text normalization (issue_formatted is its output, a precondition per
spec 4.2) and with the decoded issue template passed explicitly: the source
reads and yaml-decodes .github/ISSUE_TEMPLATE/submission.yml inside
_section_titles_to_ids, so that file state appears here as the template
argument. Splits on the heading marker, drops the part before the first
heading, cleans each section, re-keys titles to ids, replaces the sentinel,
normalizes labels and constructs the Repository. -/
def parseSubmissionIssue (template : List FormElement) (issue_formatted : String) :
    Except PyErr Repository := do
  let sections := dictFromPairs (((pySplitHdr issue_formatted).drop 1).map cleanSection)
  let args0 ← sectionsToIds template sections
  let args1 := sentinelStep args0
  let args2 ← labelsStep args1
  mkRepository args2

/-- Response of an external HTTP request as seen by the code: the success flag
and the body bytes (requests.Response.ok and .content, modeled as a string). -/
structure HttpResponse where
  ok : Bool
  content : String
  deriving DecidableEq

/-- The tests_passed loop of Manager.update_badges (manager.py lines 43-46):
the flag starts true and is set false whenever a standard-type entry with
passed false is seen, in iteration order. -/
def testsPassed (results : List TestResult) : Bool :=
  results.foldl
    (fun acc t => if t.test_type = "standard" && !t.passed then false else acc) true

/-- The badge color of Manager.update_badges (manager.py line 47). -/
def badgeColor (results : List TestResult) : String :=
  if testsPassed results then "blueviolet" else "gray"

/-- The shields.io request URL built by Manager.update_badges (lines 50-53). -/
def shieldsUrl (label message color : String) : String :=
  "https://img.shields.io/static/v1?label=" ++ label ++ "&message=" ++ message
    ++ "&color=" ++ color

/-- One iteration of the Manager.update_badges loop body for one project
(manager.py lines 43-58). The external requests.get is the fetch argument: an
error value is a raised transport exception, otherwise a response. The result
is the badge file written for the project (file name and bytes); the response
success flag is never inspected, so the content is written unconditionally. -/
def updateBadgesStep (fetch : String → Except Unit HttpResponse)
    (project : Repository) (tier : String) : Except Unit (String × String) :=
  let color := badgeColor project.tests_results
  match fetch (shieldsUrl project.name tier color) with
  | .error e => .error e
  | .ok resp => .ok (project.name ++ ".svg", resp.content)

/-- The Manager.update_badges batch over the projects of one tier: each step
writes its badge file; a raised exception propagates and aborts the batch. -/
def updateBadges (fetch : String → Except Unit HttpResponse) (tier : String) :
    List Repository → Except Unit (List (String × String))
  | [] => .ok []
  | p :: ps =>
    match updateBadgesStep fetch p tier with
    | .error e => .error e
    | .ok written =>
      match updateBadges fetch tier ps with
      | .error e => .error e
      | .ok rest => .ok (written :: rest)

/-- The decoded JSON body of a stars API response: either undecodable or an
object whose stargazers_count entry may be absent (dict.get gives None then). -/
inductive JsonBody where
  | malformed
  | obj (stargazers_count : Option Int)
  deriving DecidableEq

/-- A repository-API response: requests.Response.ok plus its decoded JSON body. -/
structure ApiResponse where
  ok : Bool
  body : JsonBody
  deriving DecidableEq

/-- The trailing-slash strip of Manager.update_stars (manager.py line 65):
url[-1] raises an IndexError on an empty string. -/
def stripTrailingSlash (url : String) : Except PyErr String :=
  match url.toList.getLast? with
  | none => .error .indexError
  | some c => .ok (if c = '/' then url.toList.dropLast.asString else url)

/-- The owner and repo derivation of Manager.update_stars (lines 65-68): strip
one trailing slash, split on "/", take the last two chunks; fewer than two
chunks raises an IndexError. -/
def updateStarsTarget (url : String) : Except PyErr (String × String) := do
  let u ← stripTrailingSlash url
  match (pySplitChar '/' u).reverse with
  | repo :: user :: _ => .ok (user, repo)
  | _ => .error .indexError

/-- One iteration of the Manager.update_stars loop body (manager.py lines
63-78). The external requests.get is the fetch argument, mapping the owner and
repo to a response. A non-ok response logs and continues, issuing no update
(ok none); an ok response has its JSON decoded (a decode failure raises) and a
dao.update(url, stars=...) is issued with the stargazers_count value, absent
or not. -/
def updateStarsStep (fetch : String → String → ApiResponse) (project : Repository) :
    Except PyErr (Option (String × Option Int)) :=
  match updateStarsTarget project.url with
  | .error e => .error e
  | .ok target =>
    let resp := fetch target.1 target.2
    if resp.ok then
      match resp.body with
      | .malformed => .error .jsonDecodeError
      | .obj sc => .ok (some (project.url, sc))
    else .ok none

/-- The Manager.update_stars batch: the ordered list of dao.update calls issued;
a raised exception aborts the batch. -/
def updateStars (fetch : String → String → ApiResponse) :
    List Repository → Except PyErr (List (String × Option Int))
  | [] => .ok []
  | p :: ps =>
    match updateStarsStep fetch p with
    | .error e => .error e
    | .ok none => updateStars fetch ps
    | .ok (some upd) =>
      match updateStars fetch ps with
      | .error e => .error e
      | .ok rest => .ok (upd :: rest)

/-- Modelled from the spec: DAO.update applies field changes keyed by url
(ecosystem/daos is not under src/; spec section 6 gives update(url,
fieldChanges)). Setting stars overwrites the stored value of the record with
that url. -/
def storeUpdateStars (store : List Repository) (url : String) (stars : Option Int) :
    List Repository :=
  store.map (fun r => if r.url = url then { r with stars := stars } else r)

/-- One artifact file as seen by Manager.add_results_from_artifacts: json.load
either raises a decode error or yields an object, modeled as an ordered
mapping from keys to opaque values. -/
inductive ArtifactFile where
  | malformed
  | decoded (json : List (String × String))
  deriving DecidableEq

/-- Whether an artifact file decodes and carries the repo_name key. -/
def artifactWellFormed : ArtifactFile → Bool
  | .malformed => false
  | .decoded js => (dlookup js "repo_name").isSome

/-- Manager.add_results_from_artifacts (manager.py lines 150-157): for each
artifact in order, json.load (a decode failure raises and aborts), pop
repo_name (KeyError when absent), build the canonical URL and append the
remaining fields as a test result. The result is the ordered list of
dao.add_repo_test_result effects issued before any raised error, plus the
error when one is raised; there is no per-file skip. -/
def addResultsFromArtifacts :
    List ArtifactFile → List (String × List (String × String)) × Option PyErr
  | [] => ([], none)
  | .malformed :: _ => ([], some .jsonDecodeError)
  | .decoded js :: rest =>
    match dlookup js "repo_name" with
    | none => ([], some (.keyError "repo_name"))
    | some nm =>
      let eff := ("https://github.com/" ++ nm, dictRemove js "repo_name")
      let step := addResultsFromArtifacts rest
      (eff :: step.1, step.2)

/-- The owner/repo rendering of Manager.list_repos_for_testing (manager.py
line 166): path chunks 3 and 4 of the URL split on "/", joined with "/". -/
def repoTestName (r : Repository) : String :=
  pyJoin "/" (((pySplitChar '/' r.url).drop 3).take 2)

/-- Manager.list_repos_for_testing (manager.py lines 159-168): walk the store
in order and collect the rendered name of every record whose skip_tests flag
is false. (The source then wraps the list in json.dumps; the list itself is
the sequence under specification.) -/
def listReposForTesting : List Repository → List String
  | [] => []
  | r :: rs =>
    if !r.skip_tests then repoTestName r :: listReposForTesting rs
    else listReposForTesting rs

/-- Local names in scope inside the body of CliCI.add_member_from_issue: the
method is declared @staticmethod, so its only parameter is body and no name
self is bound (nor is any global of that name defined in ci.py). -/
def ciLocalNames (body : String) : List (String × String) := [("body", body)]

/-- Python name resolution: an unbound name raises a NameError. -/
def lookupName (scope : List (String × String)) (n : String) : Except PyErr String :=
  match dlookup scope n with
  | some v => .ok v
  | none => .error (.nameError n)

/-- The call parse_submission_issue(body, self.current_dir) appearing in
CliCI.add_member_from_issue: parse_submission_issue accepts exactly one
positional argument, so a two-argument call raises a TypeError. -/
def callParseSubmissionIssueWithTwoArgs (_template : List FormElement)
    (_arg1 _arg2 : String) : Except PyErr Repository :=
  .error .typeError

/-- CliCI.add_member_from_issue (ci.py lines 26-38) over an explicit store
state: evaluating the call arguments resolves body and then self (for
self.current_dir); the latter is unbound in a static method, so a NameError
is raised before parse_submission_issue runs and before dao.write; the
returned store state is only reached on success. -/
def addMemberFromIssue (template : List FormElement) (store : List Repository)
    (body : String) : Except PyErr (List Repository) := do
  let b ← lookupName (ciLocalNames body) "body"
  let selfDir ← lookupName (ciLocalNames body) "self"
  let parsed ← callParseSubmissionIssueWithTwoArgs template b selfDir
  .ok (store ++ [parsed])

/-- Sample decoded issue template: a markdown intro plus Name, Repository and
Labels field descriptors. -/
def tmplGood : List FormElement :=
  [⟨some "markdown", none, none⟩,
   ⟨some "input", some (some "Name"), some "name"⟩,
   ⟨some "input", some (some "Repository"), some "url"⟩,
   ⟨some "input", some (some "Labels"), some "labels"⟩]

/-- Sample decoded issue template lacking the Labels field descriptor. -/
def tmplNoLabels : List FormElement :=
  [⟨some "input", some (some "Name"), some "name"⟩,
   ⟨some "input", some (some "Repository"), some "url"⟩]

/-- Sample issue body (already mdformat-normalized) with a three-entry labels list. -/
def bodyABC : String :=
  "### Name\n\nFoo\n\n### Repository\n\nhttps://github.com/x/foo\n\n### Labels\n\na, b ,c\n"

/-- Sample issue body whose labels section holds an empty piece between commas. -/
def bodyEmptyPiece : String :=
  "### Name\n\nFoo\n\n### Repository\n\nhttps://github.com/x/foo\n\n### Labels\n\na,,b\n"

/-- Sample issue body whose labels section was left blank by the submitter,
so the template rendered the no-answer sentinel. -/
def bodySentinelLabels : String :=
  "### Name\n\nFoo\n\n### Repository\n\nhttps://github.com/x/foo\n\n### Labels\n\n_No response_\n"

/-- Sample issue body with no labels section at all. -/
def bodyNoLabels : String :=
  "### Name\n\nFoo\n\n### Repository\n\nhttps://github.com/x/foo\n"

/-- Sample issue body whose labels section has an empty body. -/
def bodyEmptyLabels : String :=
  "### Name\n\nFoo\n\n### Repository\n\nhttps://github.com/x/foo\n\n### Labels\n"

/-- Sample decoded issue template with two field descriptors sharing a label. -/
def tmplDupLabel : List FormElement :=
  [⟨some "input", some (some "Name"), some "name"⟩,
   ⟨some "input", some (some "Name"), some "description"⟩]

/-- A sample registry record with the given name, url and skip flag. -/
def sampleRepo (nm url : String) (skip : Bool) : Repository :=
  ⟨nm, url, none, none, none, none, none, [], none, "Community", none, skip, []⟩

/-- Sample record A, not skipped. -/
def repoA : Repository := sampleRepo "aqua" "https://github.com/ownA/repA" false

/-- Sample record B, skipped for testing. -/
def repoB : Repository := sampleRepo "brick" "https://github.com/ownB/repB" true

/-- Sample record C, not skipped. -/
def repoC : Repository := sampleRepo "coral" "https://github.com/ownC/repC" false

/-- Sample record A carrying a previously refreshed star count. -/
def repoAStarred : Repository := { repoA with stars := some 7 }

/-- A stars API stub answering every query with a non-success response. -/
def fetchStarsFail : String → String → ApiResponse := fun _ _ => ⟨false, .obj none⟩

/-- A stars API stub answering every query ok with a body lacking
stargazers_count. -/
def fetchStarsNoCount : String → String → ApiResponse := fun _ _ => ⟨true, .obj none⟩

/-- A badge service stub returning a non-success response with an error page. -/
def fetchBadgeNotOk : String → Except Unit HttpResponse := fun _ => .ok ⟨false, "error page"⟩

/-- Sample well-formed artifact files. -/
def artifactsPre : List ArtifactFile :=
  [.decoded [("repo_name", "ownA/repA"), ("passed", "true")]]

/-- Sample artifact files placed after a malformed one. -/
def artifactsRest : List ArtifactFile :=
  [.decoded [("repo_name", "ownC/repC"), ("passed", "false")]]


theorem testsPassed_foldl_aux (acc : Bool) (rs : List TestResult) :
    rs.foldl (fun a t => if t.test_type = "standard" && !t.passed then false else a) acc
      = (acc && rs.all fun t => !(decide (t.test_type = "standard") && !t.passed)) := by
  induction rs generalizing acc with
  | nil => simp
  | cons t ts ih =>
    simp only [List.foldl_cons, List.all_cons, ih]
    cases hc : (decide (t.test_type = "standard") && !t.passed) <;> simp [hc]

theorem testsPassed_eq (rs : List TestResult) :
    testsPassed rs = (rs.all fun t => !(decide (t.test_type = "standard") && !t.passed)) := by
  simpa [testsPassed] using testsPassed_foldl_aux true rs

theorem badgeColor_gray_iff (rs : List TestResult) :
    badgeColor rs = "gray" ↔ testsPassed rs = false := by
  unfold badgeColor
  cases h : testsPassed rs <;> simp [h]

/-- C2: the badge color is gray exactly when some standard-type entry has
passed false; a failing standard result anywhere makes the color gray even
when a passing standard result comes later, and results of other types never
do; the three concrete result lists of the claim evaluate as stated. -/
theorem c2_badge_color_standard_failures :
    (∀ rs : List TestResult,
      (badgeColor rs = "gray" ↔ ∃ t ∈ rs, t.test_type = "standard" ∧ t.passed = false))
    ∧ badgeColor [⟨"standard", true⟩, ⟨"standard", false⟩] = "gray"
    ∧ badgeColor [⟨"standard", true⟩] = "blueviolet"
    ∧ badgeColor [⟨"other", false⟩] = "blueviolet" := by
  refine ⟨?_, by decide, by decide, by decide⟩
  intro rs
  rw [badgeColor_gray_iff, testsPassed_eq]
  simp [List.all_eq_false]

/-- C6: list_repos_for_testing keeps exactly the records whose skip_tests flag
is false, in store order, rendered from path chunks 3 and 4 of the URL; the
claim's concrete three-record example evaluates to [A, C]. -/
theorem c6_list_repos_for_testing :
    (∀ rs : List Repository,
      listReposForTesting rs = (rs.filter (fun r => !r.skip_tests)).map repoTestName)
    ∧ repoTestName repoA = "ownA/repA"
    ∧ listReposForTesting [repoA, repoB, repoC] = ["ownA/repA", "ownC/repC"] := by
  refine ⟨?_, by decide, by decide⟩
  intro rs
  induction rs with
  | nil => rfl
  | cons r rs ih => cases h : r.skip_tests <;> simp [listReposForTesting, h, ih]

/-- C1 counterexample: the labels body "a,,b" normalizes to a list that keeps
the empty piece, not to the claimed list with empty pieces dropped. -/
theorem c1_counterexample :
    (parseSubmissionIssue tmplGood bodyEmptyPiece).map Repository.labels = .ok ["a", "", "b"]
    ∧ (["a", "", "b"] : List String) ≠ ["a", "b"] := by decide

/-- C1 amended: a present labels body is split on commas with each piece
trimmed but empty pieces kept (an empty body yields one empty-string label);
a sentinel body gives the empty list; an absent labels section raises a
KeyError instead of defaulting; "a, b ,c" still gives ["a","b","c"]. -/
theorem c1_labels_normalization_amended :
    (∀ s : String, labelsStep [("labels", FieldVal.str s)]
        = .ok [("labels", FieldVal.strList ((pySplitChar ',' s).map pyStrip))])
    ∧ (parseSubmissionIssue tmplGood bodyABC).map Repository.labels = .ok ["a", "b", "c"]
    ∧ (parseSubmissionIssue tmplGood bodySentinelLabels).map Repository.labels = .ok []
    ∧ (parseSubmissionIssue tmplGood bodyEmptyLabels).map Repository.labels = .ok [""]
    ∧ parseSubmissionIssue tmplGood bodyNoLabels = .error (.keyError "labels") := by
  refine ⟨fun s => rfl, by decide, by decide, by decide, by decide⟩

/-- C3 counterexample: a template with two field descriptors sharing the label
Name resolves without any error, silently keeping the last descriptor's id. -/
theorem c3_counterexample :
    buildLabelToId tmplDupLabel = .ok [("Name", "description")] := by decide

/-- C3 amended: a descriptor missing its type, attributes, label or id makes
resolution fail with the corresponding KeyError (no TemplateFormatError
exists), while two non-markdown descriptors sharing a label raise no error:
the mapping silently resolves to the last descriptor's id. -/
theorem c3_template_resolution_amended :
    (∀ (acc : List (String × String)) (lbl : String) (fs : List FormElement),
      buildLabelToIdAux acc (⟨some "input", some (some lbl), none⟩ :: fs)
        = .error (.keyError "id"))
    ∧ (∀ (acc : List (String × String)) (i : String) (fs : List FormElement),
      buildLabelToIdAux acc (⟨some "input", none, some i⟩ :: fs)
        = .error (.keyError "attributes"))
    ∧ (∀ (acc : List (String × String)) (i : String) (fs : List FormElement),
      buildLabelToIdAux acc (⟨some "input", some none, some i⟩ :: fs)
        = .error (.keyError "label"))
    ∧ (∀ (acc : List (String × String)) (lbl i : String) (fs : List FormElement),
      buildLabelToIdAux acc (⟨none, some (some lbl), some i⟩ :: fs)
        = .error (.keyError "type"))
    ∧ buildLabelToId tmplDupLabel = .ok [("Name", "description")]
    ∧ dlookup [("Name", "description")] "Name" = some "description" := by
  exact ⟨fun _ _ _ => rfl, fun _ _ _ => rfl, fun _ _ _ => rfl, fun _ _ _ _ => rfl,
    by decide, by decide⟩

/-- C8 counterexample: the same issue body parses to different results under
two different template file states, so the result is not determined by the
body string alone. -/
theorem c8_counterexample :
    parseSubmissionIssue tmplGood bodyABC ≠ parseSubmissionIssue tmplNoLabels bodyABC := by
  decide

/-- C8 amended: parse_submission_issue reads the issue template file inside
_section_titles_to_ids, so its result depends on that file state as well as
on the body: under a template knowing the Labels field the sample body parses
to a record, and under one lacking it the same body fails with a KeyError. -/
theorem c8_template_file_dependence :
    (parseSubmissionIssue tmplGood bodyABC).map Repository.name = .ok "Foo"
    ∧ parseSubmissionIssue tmplNoLabels bodyABC = .error (.keyError "Labels") := by
  decide

/-- C4 counterexample: for a record whose badge fetch returns a non-success
response, the badge file is still written with the response content instead
of the record being skipped. -/
theorem c4_counterexample :
    updateBadgesStep fetchBadgeNotOk repoA "Community" = .ok ("aqua.svg", "error page") := by
  decide

/-- C4 amended: update_badges never inspects the fetch outcome: whatever the
success flag of the response, the response content is written to the badge
file of the record, and a fetch that raises a transport exception aborts the
whole batch rather than skipping the record. -/
theorem c4_badge_fetch_never_checked :
    (∀ (ok : Bool) (content : String) (p : Repository) (tier : String),
      updateBadgesStep (fun _ => .ok ⟨ok, content⟩) p tier = .ok (p.name ++ ".svg", content))
    ∧ (∀ (p : Repository) (tier : String) (ps : List Repository),
      updateBadges (fun _ => .error ()) tier (p :: ps) = .error ()) := by
  exact ⟨fun _ _ _ _ => rfl, fun _ _ _ => rfl⟩

/-- C5: a record whose stars query returns a non-success response raises
nothing, issues no store update, and the batch result is exactly that of the
remaining records. -/
theorem c5_update_stars_skip (fetch : String → String → ApiResponse)
    (p : Repository) (ps : List Repository) (user repo : String)
    (htarget : updateStarsTarget p.url = .ok (user, repo))
    (hfail : (fetch user repo).ok = false) :
    updateStarsStep fetch p = .ok none
    ∧ updateStars fetch (p :: ps) = updateStars fetch ps := by
  have hstep : updateStarsStep fetch p = .ok none := by
    simp [updateStarsStep, htarget, hfail]
  exact ⟨hstep, by simp [updateStars, hstep]⟩

/-- C5 witness at a concrete record and an always-failing stars API. -/
theorem c5_update_stars_skip_witness :
    updateStarsStep fetchStarsFail repoA = .ok none
    ∧ updateStars fetchStarsFail (repoA :: [repoC]) = updateStars fetchStarsFail [repoC] :=
  c5_update_stars_skip fetchStarsFail repoA [repoC] "ownA" "repA" (by decide) (by decide)

/-- C10: a successful stars response whose JSON body lacks stargazers_count
still issues a store update for the record, with stars set to the absent
value, and applying that update overwrites a previously stored count. -/
theorem c10_update_stars_missing_count (fetch : String → String → ApiResponse)
    (p old : Repository) (user repo : String)
    (htarget : updateStarsTarget p.url = .ok (user, repo))
    (hresp : fetch user repo = ⟨true, .obj none⟩)
    (hold : old.url = p.url) :
    updateStarsStep fetch p = .ok (some (p.url, none))
    ∧ storeUpdateStars [old] p.url none = [{ old with stars := none }] := by
  constructor
  · simp [updateStarsStep, htarget, hresp]
  · simp [storeUpdateStars, hold]

/-- C10 witness: a record with a previously stored star count of 7 gets it
overwritten by the absent value. -/
theorem c10_update_stars_missing_count_witness :
    updateStarsStep fetchStarsNoCount repoA = .ok (some (repoA.url, none))
    ∧ storeUpdateStars [repoAStarred] repoA.url none = [{ repoAStarred with stars := none }] :=
  c10_update_stars_missing_count fetchStarsNoCount repoA repoAStarred "ownA" "repA"
    (by decide) (by decide) (by decide)

/-- C7: a malformed artifact behind any well-formed prefix makes the whole
ingestion report the decode error, and no artifact at or after the malformed
one is ingested: the effects are exactly those of the prefix, with no
per-file skip. -/
theorem c7_artifact_decode_fatal (pre rest : List ArtifactFile)
    (hpre : pre.all artifactWellFormed = true) :
    (addResultsFromArtifacts (pre ++ ArtifactFile.malformed :: rest)).2
      = some PyErr.jsonDecodeError
    ∧ (addResultsFromArtifacts (pre ++ ArtifactFile.malformed :: rest)).1
      = (addResultsFromArtifacts pre).1 := by
  induction pre with
  | nil => exact ⟨rfl, rfl⟩
  | cons a as ih =>
    simp only [List.all_cons, Bool.and_eq_true] at hpre
    obtain ⟨ha, has⟩ := hpre
    have ih2 := ih has
    cases a with
    | malformed => simp [artifactWellFormed] at ha
    | decoded js =>
      simp only [artifactWellFormed] at ha
      cases hl : dlookup js "repo_name" with
      | none => rw [hl] at ha; simp at ha
      | some nm =>
        simp only [List.cons_append, addResultsFromArtifacts, hl, List.append_eq]
        exact ⟨ih2.1, by rw [ih2.2]⟩

/-- C7 witness: one good artifact, then a malformed one, then another good
one: the error is reported and only the first artifact is ingested. -/
theorem c7_artifact_decode_fatal_witness :
    (addResultsFromArtifacts (artifactsPre ++ ArtifactFile.malformed :: artifactsRest)).2
      = some PyErr.jsonDecodeError
    ∧ (addResultsFromArtifacts (artifactsPre ++ ArtifactFile.malformed :: artifactsRest)).1
      = (addResultsFromArtifacts artifactsPre).1 :=
  c7_artifact_decode_fatal artifactsPre artifactsRest (by decide)

/-- C9: CliCI.add_member_from_issue resolves the unbound name self before
anything else can happen, so every call raises a NameError, never reaches
parse_submission_issue or dao.write, and never returns an updated store. -/
theorem c9_add_member_always_raises :
    ∀ (template : List FormElement) (store : List Repository) (body : String),
      addMemberFromIssue template store body = .error (.nameError "self")
      ∧ ∀ store2 : List Repository, addMemberFromIssue template store body ≠ .ok store2 := by
  intro template store body
  exact ⟨rfl, fun store2 h => Except.noConfusion h⟩
